import Mathlib

/-!
Verification of the SDP creation helpers (`src/stream_output/sdp.c`).

The C module builds a Session Description Protocol text blob.  We give a
shallow embedding of its four functions:

* `AddressToSDP`  — formats a binary socket address as `IN IP4 ...` / `IN IP6 ...`;
* `IsSDPString`   — validates a text field (no CR, no LF, valid UTF-8);
* `sdp_Start`     — builds the initial session-level document;
* `sdp_AddAttribute` / `vsdp_AddAttribute` — appends one attribute line;
* `sdp_AddMedia`  — appends a media description block.

Machine strings are modelled as Lean `String`s (sequences of Unicode
scalar values); the byte-level validator `IsSDPString` is modelled over
`List Nat` byte strings.  External capabilities (`vlc_getnameinfo`,
`net_SockAddrIsMulticast`, `gethostname`, `NTPtime64`) are modelled as
inputs, following the spec which declares them out of scope.  Memory
allocation is modelled as always succeeding; undefined behaviour of the C
code (mismatched printf arguments) is modelled as the distinguished error
`SdpErr.undef`.
-/

/-! ## Decimal rendering of unsigned integers (printf `%u`) -/

/-- Character for a single decimal digit. -/
def digitCh (d : Nat) : Char := Char.ofNat (48 + d % 10)

/-- Fuel-driven decimal digit expansion (structural, so it reduces by `rfl`). -/
def natDigitsAux : Nat → Nat → List Char
  | 0, _ => []
  | fuel+1, n => if n < 10 then [digitCh n] else natDigitsAux fuel (n / 10) ++ [digitCh (n % 10)]

/-- Decimal digit string of a natural number, most significant digit first. -/
def natDigits (n : Nat) : List Char := natDigitsAux (n + 1) n

/-- Decimal rendering of a natural number as a `String` (printf `%u`). -/
def natStr (n : Nat) : String := String.mk (natDigits n)

/-- Decimal rendering of an integer (printf `%d`). -/
def intChars (i : Int) : List Char :=
  if i < 0 then '-' :: natDigits (-i).toNat else natDigits i.toNat

/-- Value of a C `int` reinterpreted as `unsigned` (what printf `%u` prints
when handed an `int` argument, as `sdp_AddMedia` does with `dport`). -/
def uintOfInt (i : Int) : Nat := (i % (2 ^ 32)).toNat

/-! ## CRLF line structure -/

/-- Prepend a character to the first line of a line list (helper for `splitCRLF`). -/
def consHead (c : Char) : List (List Char) → List (List Char)
  | [] => [[c]]
  | l :: ls => (c :: l) :: ls

/-- Split a character stream at each CRLF pair.  A document consisting of
`n` CRLF-terminated lines splits into those `n` lines followed by one final
empty segment. -/
def splitCRLF : List Char → List (List Char)
  | [] => [[]]
  | [c] => [[c]]
  | c1 :: c2 :: rest =>
    if c1 = '\r' ∧ c2 = '\n' then [] :: splitCRLF rest
    else consHead c1 (splitCRLF (c2 :: rest))

/-- Join a list of lines, terminating every line with CRLF. -/
def joinCRLF (L : List (List Char)) : List Char :=
  L.foldr (fun l acc => l ++ '\r' :: '\n' :: acc) []

/-- Boolean test that a pattern is an initial segment of a line. -/
def startsWithL : List Char → List Char → Bool
  | [], _ => true
  | _ :: _, [] => false
  | p :: ps, c :: cs => p == c && startsWithL ps cs

/-- Number of CRLF-delimited lines of `doc` that start with the marker `p`. -/
def countLines (p : String) (doc : String) : Nat :=
  (splitCRLF doc.data).countP (fun l => startsWithL p.data l)

/-- A document is CRLF well-formed when it is a (possibly empty) sequence of
CRLF-terminated lines, i.e. splitting at CRLF leaves a final empty segment. -/
def wellFormedCRLF (doc : String) : Bool :=
  (splitCRLF doc.data).getLast? == some []

/-! ## Byte-level string validator (`IsSDPString`, sdp.c lines 77–86)

The validator operates on C byte strings, modelled as `List Nat` (C strings
cannot contain the byte 0, but nothing below depends on that). -/

/-- UTF-8 continuation byte test (`0x80`–`0xBF`). -/
def isCont (b : Nat) : Bool := 0x80 ≤ b && b ≤ 0xBF

/-- Modelled from the spec: the external UTF-8 validity check `IsUTF8` (from
the charset module `vlc_charset.h`, whose implementation is not part of the
sources here).  The spec requires "valid text encoding (no malformed
multi-byte sequences)", i.e. the byte string is well-formed UTF-8 in the
sense of RFC 3629: no overlong forms, no surrogates, no code points above
U+10FFFF. -/
def IsUTF8 : List Nat → Bool
  | [] => true
  | b1 :: rest =>
    if b1 ≤ 0x7F then IsUTF8 rest
    else if 0xC2 ≤ b1 && b1 ≤ 0xDF then
      match rest with
      | b2 :: rest2 => isCont b2 && IsUTF8 rest2
      | [] => false
    else if b1 = 0xE0 then
      match rest with
      | b2 :: b3 :: rest3 => (0xA0 ≤ b2 && b2 ≤ 0xBF) && (isCont b3 && IsUTF8 rest3)
      | _ => false
    else if 0xE1 ≤ b1 && b1 ≤ 0xEC then
      match rest with
      | b2 :: b3 :: rest3 => isCont b2 && (isCont b3 && IsUTF8 rest3)
      | _ => false
    else if b1 = 0xED then
      match rest with
      | b2 :: b3 :: rest3 => (0x80 ≤ b2 && b2 ≤ 0x9F) && (isCont b3 && IsUTF8 rest3)
      | _ => false
    else if 0xEE ≤ b1 && b1 ≤ 0xEF then
      match rest with
      | b2 :: b3 :: rest3 => isCont b2 && (isCont b3 && IsUTF8 rest3)
      | _ => false
    else if b1 = 0xF0 then
      match rest with
      | b2 :: b3 :: b4 :: rest4 => (0x90 ≤ b2 && b2 ≤ 0xBF) && (isCont b3 && (isCont b4 && IsUTF8 rest4))
      | _ => false
    else if 0xF1 ≤ b1 && b1 ≤ 0xF3 then
      match rest with
      | b2 :: b3 :: b4 :: rest4 => isCont b2 && (isCont b3 && (isCont b4 && IsUTF8 rest4))
      | _ => false
    else if b1 = 0xF4 then
      match rest with
      | b2 :: b3 :: b4 :: rest4 => (0x80 ≤ b2 && b2 ≤ 0x8F) && (isCont b3 && (isCont b4 && IsUTF8 rest4))
      | _ => false
    else false

/-- Embedding of `IsSDPString` (sdp.c lines 77–86): reject on a CR byte, then
on an LF byte, then on invalid UTF-8; otherwise accept. -/
def IsSDPString (s : List Nat) : Bool :=
  if s.contains 13 then false
  else if s.contains 10 then false
  else if !(IsUTF8 s) then false
  else true

/-- Unicode scalar value test: below U+110000 and not a surrogate. -/
def isScalar (c : Nat) : Bool := c < 0x110000 && !(0xD800 ≤ c && c ≤ 0xDFFF)

/-- Standard UTF-8 encoding of a Unicode scalar value. -/
def utf8Enc (c : Nat) : List Nat :=
  if c ≤ 0x7F then [c]
  else if c ≤ 0x7FF then [0xC0 + c / 0x40, 0x80 + c % 0x40]
  else if c ≤ 0xFFFF then [0xE0 + c / 0x1000, 0x80 + c / 0x40 % 0x40, 0x80 + c % 0x40]
  else [0xF0 + c / 0x40000, 0x80 + c / 0x1000 % 0x40, 0x80 + c / 0x40 % 0x40, 0x80 + c % 0x40]

/-- A byte string is valid UTF-8 when it is the concatenation of the UTF-8
encodings of a sequence of Unicode scalar values.  This is the reference
characterisation against which the checker `IsUTF8` is verified. -/
def ValidUTF8 (s : List Nat) : Prop :=
  ∃ cs : List Nat, (∀ c ∈ cs, isScalar c = true) ∧ s = (cs.map utf8Enc).flatten

/-! ## Socket addresses and the address formatter (sdp.c lines 35–74)

A socket address is opaque to this module: the code only reads its family
tag and consults two external capabilities, `vlc_getnameinfo` (numeric host
rendering, which can fail) and `net_SockAddrIsMulticast`.  Following the
spec, those capability results are part of the address model. -/

/-- Address family tag (`sa_family`). -/
inductive Family
  | inet
  | inet6
  | other
  deriving DecidableEq, Repr

/-- Binary socket address together with the results of the two external
capabilities the formatter consults. -/
structure SockAddr where
  /-- The `sa_family` field. -/
  family : Family
  /-- Result of `vlc_getnameinfo` with `NI_NUMERICHOST` (`none` = failure). -/
  nameinfo : Option String
  /-- Result of `net_SockAddrIsMulticast`. -/
  multicast : Bool
  deriving Repr

/-- Minimal address length accepted: `offsetof(struct sockaddr, sa_family) +
sizeof(sa_family)` on the modelled platform. -/
def saFamilyMinLen : Nat := 2

/-- Character at index 5 of a string (the C code's `buf[5]`, the IP-version
marker slot of `"IN IP* "`). -/
def charAt5 (s : String) : Char := s.data.getD 5 ' '

/-- Embedding of `AddressToSDP` (sdp.c lines 35–74). -/
def AddressToSDP (addr : SockAddr) (addrlen : Nat) : Option String :=
  if addrlen < saFamilyMinLen then none
  else
    match addr.nameinfo with
    | none => none
    | some host =>
      let buf := "IN IP* " ++ host
      match addr.family with
      | Family.inet =>
        let buf := if addr.multicast then buf ++ "/255" else buf
        some (String.mk (buf.data.set 5 '4'))
      | Family.inet6 =>
        let buf := String.mk (buf.data.takeWhile (fun c => c != '%'))
        some (String.mk (buf.data.set 5 '6'))
      | Family.other => none

/-! ## Session initialisation (`sdp_Start`, sdp.c lines 89–157) -/

/-- Character-level counterpart of `IsSDPString` used where the embedding
already works with Unicode strings: a Lean `String` is a sequence of
Unicode scalar values, so the `IsUTF8` check of the C code is automatically
true and only the CR and LF rejections remain. -/
def IsSDPStringC (s : String) : Bool :=
  if s.data.contains '\r' then false
  else if s.data.contains '\n' then false
  else true

/-- Build-time product identifier embedded in the `a=tool:` line
(`PACKAGE_STRING`); its exact value is configuration-dependent. -/
def PACKAGE_STRING : String := "vlc 0.9.0-git"

/-- Embedding of `sdp_Start` (sdp.c lines 89–157).  The externally obtained
NTP timestamp (`NTPtime64`) and local host name (`gethostname`) are
parameters.  `asprintf` allocation failure is not modelled (allocation
always succeeds in the model). -/
def sdp_Start (name description url email phone : Option String)
    (src : SockAddr) (srclen : Nat) (addr : SockAddr) (addrlen : Nat)
    (now : Nat) (hostname : String) : Option String :=
  let nm := name.getD "Unnamed"
  let ds := description.getD "N/A"
  let preurl : String := if url.isSome then "\r\n" ++ "u=" else ""
  let u := url.getD ""
  let premail : String := if email.isSome then "\r\n" ++ "e=" else ""
  let em := email.getD ""
  let prephone : String := if phone.isSome then "\r\n" ++ "p=" else ""
  let ph := phone.getD ""
  if !IsSDPStringC nm || !IsSDPStringC ds || !IsSDPStringC u
      || !IsSDPStringC em || !IsSDPStringC ph then none
  else
    match AddressToSDP addr addrlen with
    | none => none
    | some connection =>
      let sfilter : String :=
        if 0 < srclen then
          match AddressToSDP src srclen with
          | some machine =>
            "\r\n" ++ "a=source-filter: incl IN IP" ++ String.singleton (charAt5 machine)
              ++ " * " ++ String.mk (machine.data.drop 7)
          | none => ""
        else ""
      some ("v=0"
        ++ "\r\n" ++ "o=- " ++ natStr now ++ " " ++ natStr now
          ++ " IN IP" ++ String.singleton (charAt5 connection) ++ " " ++ hostname
        ++ "\r\n" ++ "s=" ++ nm
        ++ "\r\n" ++ "i=" ++ ds
        ++ preurl ++ u
        ++ premail ++ em
        ++ prephone ++ ph
        ++ "\r\n" ++ "c=" ++ connection
        ++ "\r\n" ++ "t=0 0"
        ++ "\r\n" ++ "a=tool:" ++ PACKAGE_STRING
        ++ "\r\n" ++ "a=recvonly"
        ++ "\r\n" ++ "a=type:broadcast"
        ++ "\r\n" ++ "a=charset:UTF-8"
        ++ sfilter
        ++ "\r\n")

/-! ## Attribute append (sdp.c lines 160–199)

`vsdp_AddAttribute` formats the caller-supplied template with `vsnprintf`
to size the allocation, writes `a=<name>:`, and then executes
`sprintf (ret + oldlen, fmt, ap)` — passing the `va_list` object itself as
a single ordinary variadic argument instead of using `vsprintf`.  When the
template contains no conversion specification this is well defined (extra
printf arguments are ignored) and writes the template text verbatim; when
it does contain one, the call has undefined behaviour.  No CRLF terminator
is written on this path (the allocation reserves room for one).  Undefined
behaviour is modelled as the error `SdpErr.undef`. -/

/-- Errors of the append operations: undefined behaviour of the C code, or
an `assert` failure (fail-fast contract violation). -/
inductive SdpErr
  | undef
  | assertViolation
  deriving DecidableEq, Repr

/-- A variadic argument as passed to the printf-style formatter. -/
inductive FmtArg
  | natArg (n : Nat)
  | intArg (i : Int)
  | strArg (s : String)
  | chArg (c : Char)
  /-- A `va_list` object passed as if it were an ordinary argument
  (what the buggy `sprintf (ret + oldlen, fmt, ap)` call does). -/
  | vaListArg

/-- Printf-style rendering of a format template against a list of variadic
arguments.  `none` models undefined behaviour: a conversion specification
whose argument is missing or of the wrong type, or one not used by this
module. -/
def renderFmt : List Char → List FmtArg → Option (List Char)
  | [], _ => some []
  | '%' :: '%' :: rest, args => (renderFmt rest args).map (fun t => '%' :: t)
  | '%' :: 'u' :: rest, FmtArg.natArg n :: args => (renderFmt rest args).map (fun t => natDigits n ++ t)
  | '%' :: 'd' :: rest, FmtArg.intArg i :: args => (renderFmt rest args).map (fun t => intChars i ++ t)
  | '%' :: 's' :: rest, FmtArg.strArg s :: args => (renderFmt rest args).map (fun t => s.data ++ t)
  | '%' :: 'c' :: rest, FmtArg.chArg c :: args => (renderFmt rest args).map (fun t => c :: t)
  | '%' :: _, _ => none
  | c :: rest, args => (renderFmt rest args).map (fun t => c :: t)

/-- Embedding of `vsdp_AddAttribute` (sdp.c lines 160–174).  The first
rendering models the `vsnprintf (NULL, 0, fmt, ap)` sizing call (undefined
behaviour if the template does not match the arguments); the second models
the buggy `sprintf (ret + oldlen, fmt, ap)`, which renders the template
against the single argument `ap` itself.  Note that no CRLF is appended. -/
def vsdp_AddAttribute (sdp name fmt : String) (ap : List FmtArg) : Except SdpErr String :=
  match renderFmt fmt.data ap with
  | none => Except.error SdpErr.undef
  | some _ =>
    match renderFmt fmt.data [FmtArg.vaListArg] with
    | none => Except.error SdpErr.undef
    | some v => Except.ok (sdp ++ "a=" ++ name ++ ":" ++ String.mk v)

/-- Embedding of `sdp_AddAttribute` (sdp.c lines 177–199).  With a null
format the bare line `a=<name>\r\n` is appended. -/
def sdp_AddAttribute (sdp name : String) (fmt : Option String) (ap : List FmtArg) :
    Except SdpErr String :=
  match fmt with
  | some f => vsdp_AddAttribute sdp name f ap
  | none => Except.ok (sdp ++ "a=" ++ name ++ "\r\n")

/-! ## Media append (`sdp_AddMedia`, sdp.c lines 202–241) -/

/-- Embedding of `sdp_AddMedia` (sdp.c lines 202–241).  The payload type is
checked by `assert (pt < 128u)` before any buffer mutation; the media and
bandwidth lines are formatted with a literal template (`dport`, a C `int`,
is printed with `%u`, and `pt`, an `unsigned`, with `%d`); the optional
`rtpmap` and `fmtp` attributes are delegated to `sdp_AddAttribute` with the
template `"%u %s"`.  The parameters `bw_indep` and `bw` are accepted but
never used. -/
def sdp_AddMedia (sdp : String) (type protocol : Option String) (dport : Int)
    (pt : Nat) (bw_indep : Bool) (bw : Nat) (rtpmap fmtp : Option String) :
    Except SdpErr String :=
  let ty := type.getD "video"
  let proto := protocol.getD "RTP/AVP"
  if pt < 128 then
    let sdp1 := sdp ++ "m=" ++ ty ++ " " ++ natStr (uintOfInt dport) ++ " " ++ proto
      ++ " " ++ natStr pt ++ "\r\n" ++ "b=RR:0" ++ "\r\n"
    let step2 : Except SdpErr String :=
      match rtpmap with
      | some r => sdp_AddAttribute sdp1 "rtpmap" (some "%u %s") [FmtArg.natArg pt, FmtArg.strArg r]
      | none => Except.ok sdp1
    match step2 with
    | Except.error e => Except.error e
    | Except.ok sdp2 =>
      match fmtp with
      | some f => sdp_AddAttribute sdp2 "fmtp" (some "%u %s") [FmtArg.natArg pt, FmtArg.strArg f]
      | none => Except.ok sdp2
  else Except.error SdpErr.assertViolation

/-! ## Line-structure lemmas -/

theorem joinCRLF_nil : joinCRLF [] = [] := rfl

theorem joinCRLF_cons (l : List Char) (ls : List (List Char)) :
    joinCRLF (l :: ls) = l ++ '\r' :: '\n' :: joinCRLF ls := rfl

theorem splitCRLF_crlf_cons (l : List Char) :
    splitCRLF ('\r' :: '\n' :: l) = [] :: splitCRLF l := by
  rw [splitCRLF]
  simp

theorem splitCRLF_cons (c : Char) (l : List Char) (h : c ≠ '\r') :
    splitCRLF (c :: l) = consHead c (splitCRLF l) := by
  cases l with
  | nil => simp [splitCRLF, consHead]
  | cons d t =>
    rw [splitCRLF, if_neg]
    intro hc
    exact h hc.1

theorem splitCRLF_append (a b : List Char) (h : '\r' ∉ a) :
    splitCRLF (a ++ '\r' :: '\n' :: b) = a :: splitCRLF b := by
  induction a with
  | nil => simpa using splitCRLF_crlf_cons b
  | cons c t ih =>
    have hc : c ≠ '\r' := fun e => h (by simp [e])
    have ht : '\r' ∉ t := fun m => h (List.mem_cons_of_mem _ m)
    rw [List.cons_append, splitCRLF_cons c _ hc, ih ht]
    rfl

theorem splitCRLF_join (L : List (List Char)) (h : ∀ l ∈ L, '\r' ∉ l) :
    splitCRLF (joinCRLF L) = L ++ [[]] := by
  induction L with
  | nil => rfl
  | cons l ls ih =>
    rw [joinCRLF_cons, splitCRLF_append _ _ (h l (List.mem_cons_self l ls)),
      ih (fun x hx => h x (List.mem_cons_of_mem _ hx))]
    rfl

theorem contains_iff_mem {α : Type} [BEq α] [LawfulBEq α] (l : List α) (a : α) :
    l.contains a = true ↔ a ∈ l :=
  List.elem_iff

theorem IsSDPStringC_iff (s : String) :
    IsSDPStringC s = true ↔ '\r' ∉ s.data ∧ '\n' ∉ s.data := by
  unfold IsSDPStringC
  by_cases h1 : '\r' ∈ s.data <;> by_cases h2 : '\n' ∈ s.data <;> simp [h1, h2]

/-! ## Claim theorems: media append -/

/-- Claim C9: `sdp_AddMedia` requires a payload type in [0,127]; every call
with a payload type of 128 or more fails fast at the `assert` as a contract
violation, before any mutation of the document: no new buffer is produced. -/
theorem addMedia_payload_type_contract (sdp : String) (type protocol : Option String)
    (dport : Int) (pt : Nat) (bw_indep : Bool) (bw : Nat) (rtpmap fmtp : Option String)
    (h : 128 ≤ pt) :
    sdp_AddMedia sdp type protocol dport pt bw_indep bw rtpmap fmtp
      = Except.error SdpErr.assertViolation := by
  unfold sdp_AddMedia
  rw [if_neg (by omega)]

/-- Witness for C9 at payload type 200. -/
theorem addMedia_payload_type_contract_w :
    128 ≤ 200 ∧ sdp_AddMedia "v=0\r\n" none none 5004 200 false 0 none none
      = Except.error SdpErr.assertViolation :=
  ⟨by decide, addMedia_payload_type_contract "v=0\r\n" none none 5004 200 false 0 none none
    (by decide)⟩

/-- Claim C10: the bandwidth-independence flag and the bandwidth value
passed to `sdp_AddMedia` do not influence its result in any way: two calls
on equal documents differing only in those two arguments return identical
results. -/
theorem addMedia_bw_inert (sdp : String) (type protocol : Option String) (dport : Int)
    (pt : Nat) (b1 b2 : Bool) (w1 w2 : Nat) (rtpmap fmtp : Option String) :
    sdp_AddMedia sdp type protocol dport pt b1 w1 rtpmap fmtp
      = sdp_AddMedia sdp type protocol dport pt b2 w2 rtpmap fmtp := rfl

/-! ## Claim theorems: attribute append (code bug) -/

/-- Claim C1 (failing evaluation): appending the attribute `foo` with the
conversion-free template `"bar"` to the document `"v=0\r\n"` writes
`a=foo:bar` with no CRLF terminator — the appended text is not of the
claimed form `a=<name>:<value>\r\n` for any value string. -/
theorem addAttribute_fmt_missing_crlf :
    sdp_AddAttribute "v=0\r\n" "foo" (some "bar") [] = Except.ok "v=0\r\na=foo:bar"
    ∧ ∀ v : String, ("v=0\r\na=foo:bar" : String) ≠ "v=0\r\n" ++ "a=foo:" ++ v ++ "\r\n" := by
  refine ⟨rfl, ?_⟩
  intro v h
  have hd : ("v=0\r\na=foo:bar" : String).data
      = ("v=0\r\n" ++ "a=foo:" ++ v ++ "\r\n" : String).data := by rw [h]
  have h1 : ("v=0\r\na=foo:bar" : String).data.getLast? = some 'r' := rfl
  have h2 : ("v=0\r\n" ++ "a=foo:" ++ v ++ "\r\n" : String).data.getLast? = some '\n' := by
    show (("v=0\r\n" ++ "a=foo:" ++ v : String).data ++ ['\r', '\n']).getLast? = some '\n'
    rw [show (['\r', '\n'] : List Char) = '\r' :: ['\n'] from rfl,
      List.getLast?_append_cons]
    rfl
  rw [hd, h2] at h1
  exact absurd h1 (by decide)

/-- Claim C2 (failing evaluation): the media append of the claimed scenario
(type and protocol defaulted, port 5004, payload type 96, rtpmap
`"H264/90000"`, no fmtp) reaches the `sprintf (ret + oldlen, fmt, ap)` call
of `vsdp_AddAttribute` with the template `"%u %s"`, whose behaviour is
undefined (the `va_list` object is passed as the argument of `%u`); the
operation does not append the claimed block. -/
theorem addMedia_scenario_undef :
    sdp_AddMedia "v=0\r\n" none none 5004 96 false 0 (some "H264/90000") none
      = Except.error SdpErr.undef := rfl

/-! ## Verification of the UTF-8 checker against the encoding characterisation -/

theorem IsUTF8_cons (b1 : Nat) (rest : List Nat) :
    IsUTF8 (b1 :: rest) =
      (if b1 ≤ 0x7F then IsUTF8 rest
      else if 0xC2 ≤ b1 && b1 ≤ 0xDF then
        match rest with
        | b2 :: rest2 => isCont b2 && IsUTF8 rest2
        | [] => false
      else if b1 = 0xE0 then
        match rest with
        | b2 :: b3 :: rest3 => (0xA0 ≤ b2 && b2 ≤ 0xBF) && (isCont b3 && IsUTF8 rest3)
        | _ => false
      else if 0xE1 ≤ b1 && b1 ≤ 0xEC then
        match rest with
        | b2 :: b3 :: rest3 => isCont b2 && (isCont b3 && IsUTF8 rest3)
        | _ => false
      else if b1 = 0xED then
        match rest with
        | b2 :: b3 :: rest3 => (0x80 ≤ b2 && b2 ≤ 0x9F) && (isCont b3 && IsUTF8 rest3)
        | _ => false
      else if 0xEE ≤ b1 && b1 ≤ 0xEF then
        match rest with
        | b2 :: b3 :: rest3 => isCont b2 && (isCont b3 && IsUTF8 rest3)
        | _ => false
      else if b1 = 0xF0 then
        match rest with
        | b2 :: b3 :: b4 :: rest4 => (0x90 ≤ b2 && b2 ≤ 0xBF) && (isCont b3 && (isCont b4 && IsUTF8 rest4))
        | _ => false
      else if 0xF1 ≤ b1 && b1 ≤ 0xF3 then
        match rest with
        | b2 :: b3 :: b4 :: rest4 => isCont b2 && (isCont b3 && (isCont b4 && IsUTF8 rest4))
        | _ => false
      else if b1 = 0xF4 then
        match rest with
        | b2 :: b3 :: b4 :: rest4 => (0x80 ≤ b2 && b2 ≤ 0x8F) && (isCont b3 && (isCont b4 && IsUTF8 rest4))
        | _ => false
      else false) := by
  cases rest with
  | nil => rfl
  | cons b2 r =>
    cases r with
    | nil => rfl
    | cons b3 r2 =>
      cases r2 with
      | nil => rfl
      | cons b4 r3 => rfl

theorem IsUTF8_one (b1 : Nat) :
    IsUTF8 [b1] =
      (if b1 ≤ 0x7F then true
      else if 0xC2 ≤ b1 && b1 ≤ 0xDF then false
      else if b1 = 0xE0 then false
      else if 0xE1 ≤ b1 && b1 ≤ 0xEC then false
      else if b1 = 0xED then false
      else if 0xEE ≤ b1 && b1 ≤ 0xEF then false
      else if b1 = 0xF0 then false
      else if 0xF1 ≤ b1 && b1 ≤ 0xF3 then false
      else if b1 = 0xF4 then false
      else false) := rfl

theorem IsUTF8_two (b1 b2 : Nat) (t : List Nat) :
    IsUTF8 (b1 :: b2 :: t) =
      (if b1 ≤ 0x7F then IsUTF8 (b2 :: t)
      else if 0xC2 ≤ b1 && b1 ≤ 0xDF then isCont b2 && IsUTF8 t
      else if b1 = 0xE0 then
        match t with
        | b3 :: rest3 => (0xA0 ≤ b2 && b2 ≤ 0xBF) && (isCont b3 && IsUTF8 rest3)
        | _ => false
      else if 0xE1 ≤ b1 && b1 ≤ 0xEC then
        match t with
        | b3 :: rest3 => isCont b2 && (isCont b3 && IsUTF8 rest3)
        | _ => false
      else if b1 = 0xED then
        match t with
        | b3 :: rest3 => (0x80 ≤ b2 && b2 ≤ 0x9F) && (isCont b3 && IsUTF8 rest3)
        | _ => false
      else if 0xEE ≤ b1 && b1 ≤ 0xEF then
        match t with
        | b3 :: rest3 => isCont b2 && (isCont b3 && IsUTF8 rest3)
        | _ => false
      else if b1 = 0xF0 then
        match t with
        | b3 :: b4 :: rest4 => (0x90 ≤ b2 && b2 ≤ 0xBF) && (isCont b3 && (isCont b4 && IsUTF8 rest4))
        | _ => false
      else if 0xF1 ≤ b1 && b1 ≤ 0xF3 then
        match t with
        | b3 :: b4 :: rest4 => isCont b2 && (isCont b3 && (isCont b4 && IsUTF8 rest4))
        | _ => false
      else if b1 = 0xF4 then
        match t with
        | b3 :: b4 :: rest4 => (0x80 ≤ b2 && b2 ≤ 0x8F) && (isCont b3 && (isCont b4 && IsUTF8 rest4))
        | _ => false
      else false) := by
  cases t with
  | nil => rfl
  | cons b3 r =>
    cases r with
    | nil => rfl
    | cons b4 r2 => rfl

theorem IsUTF8_three (b1 b2 b3 : Nat) (t : List Nat) :
    IsUTF8 (b1 :: b2 :: b3 :: t) =
      (if b1 ≤ 0x7F then IsUTF8 (b2 :: b3 :: t)
      else if 0xC2 ≤ b1 && b1 ≤ 0xDF then isCont b2 && IsUTF8 (b3 :: t)
      else if b1 = 0xE0 then (0xA0 ≤ b2 && b2 ≤ 0xBF) && (isCont b3 && IsUTF8 t)
      else if 0xE1 ≤ b1 && b1 ≤ 0xEC then isCont b2 && (isCont b3 && IsUTF8 t)
      else if b1 = 0xED then (0x80 ≤ b2 && b2 ≤ 0x9F) && (isCont b3 && IsUTF8 t)
      else if 0xEE ≤ b1 && b1 ≤ 0xEF then isCont b2 && (isCont b3 && IsUTF8 t)
      else if b1 = 0xF0 then
        match t with
        | b4 :: rest4 => (0x90 ≤ b2 && b2 ≤ 0xBF) && (isCont b3 && (isCont b4 && IsUTF8 rest4))
        | _ => false
      else if 0xF1 ≤ b1 && b1 ≤ 0xF3 then
        match t with
        | b4 :: rest4 => isCont b2 && (isCont b3 && (isCont b4 && IsUTF8 rest4))
        | _ => false
      else if b1 = 0xF4 then
        match t with
        | b4 :: rest4 => (0x80 ≤ b2 && b2 ≤ 0x8F) && (isCont b3 && (isCont b4 && IsUTF8 rest4))
        | _ => false
      else false) := by
  cases t with
  | nil => rfl
  | cons b4 r => rfl

theorem IsUTF8_four (b1 b2 b3 b4 : Nat) (t : List Nat) :
    IsUTF8 (b1 :: b2 :: b3 :: b4 :: t) =
      (if b1 ≤ 0x7F then IsUTF8 (b2 :: b3 :: b4 :: t)
      else if 0xC2 ≤ b1 && b1 ≤ 0xDF then isCont b2 && IsUTF8 (b3 :: b4 :: t)
      else if b1 = 0xE0 then (0xA0 ≤ b2 && b2 ≤ 0xBF) && (isCont b3 && IsUTF8 (b4 :: t))
      else if 0xE1 ≤ b1 && b1 ≤ 0xEC then isCont b2 && (isCont b3 && IsUTF8 (b4 :: t))
      else if b1 = 0xED then (0x80 ≤ b2 && b2 ≤ 0x9F) && (isCont b3 && IsUTF8 (b4 :: t))
      else if 0xEE ≤ b1 && b1 ≤ 0xEF then isCont b2 && (isCont b3 && IsUTF8 (b4 :: t))
      else if b1 = 0xF0 then (0x90 ≤ b2 && b2 ≤ 0xBF) && (isCont b3 && (isCont b4 && IsUTF8 t))
      else if 0xF1 ≤ b1 && b1 ≤ 0xF3 then isCont b2 && (isCont b3 && (isCont b4 && IsUTF8 t))
      else if b1 = 0xF4 then (0x80 ≤ b2 && b2 ≤ 0x8F) && (isCont b3 && (isCont b4 && IsUTF8 t))
      else false) := rfl

theorem enc1 (b1 : Nat) (h : b1 ≤ 0x7F) :
    isScalar b1 = true ∧ utf8Enc b1 = [b1] := by
  refine ⟨by simp [isScalar]; omega, ?_⟩
  unfold utf8Enc
  rw [if_pos h]

theorem enc2 (b1 b2 : Nat) (h1 : 0xC2 ≤ b1) (h2 : b1 ≤ 0xDF) (h3 : isCont b2 = true) :
    ∃ c, isScalar c = true ∧ utf8Enc c = [b1, b2] := by
  simp only [isCont, Bool.and_eq_true, decide_eq_true_eq] at h3
  refine ⟨(b1 - 0xC0) * 0x40 + (b2 - 0x80), by simp [isScalar]; omega, ?_⟩
  unfold utf8Enc
  rw [if_neg (by omega), if_pos (by omega)]
  simp only [List.cons.injEq, and_true]
  constructor <;> omega

theorem enc3 (b1 b2 b3 : Nat)
    (h1 : (b1 = 0xE0 ∧ 0xA0 ≤ b2 ∧ b2 ≤ 0xBF)
        ∨ (0xE1 ≤ b1 ∧ b1 ≤ 0xEC ∧ isCont b2 = true)
        ∨ (b1 = 0xED ∧ 0x80 ≤ b2 ∧ b2 ≤ 0x9F)
        ∨ (0xEE ≤ b1 ∧ b1 ≤ 0xEF ∧ isCont b2 = true))
    (h3 : isCont b3 = true) :
    ∃ c, isScalar c = true ∧ utf8Enc c = [b1, b2, b3] := by
  simp only [isCont, Bool.and_eq_true, decide_eq_true_eq] at h1 h3
  refine ⟨(b1 - 0xE0) * 0x1000 + (b2 - 0x80) * 0x40 + (b3 - 0x80),
    by simp [isScalar]; omega, ?_⟩
  unfold utf8Enc
  rw [if_neg (by omega), if_neg (by omega), if_pos (by omega)]
  simp only [List.cons.injEq, and_true]
  refine ⟨by omega, by omega, by omega⟩

theorem enc4 (b1 b2 b3 b4 : Nat)
    (h1 : (b1 = 0xF0 ∧ 0x90 ≤ b2 ∧ b2 ≤ 0xBF)
        ∨ (0xF1 ≤ b1 ∧ b1 ≤ 0xF3 ∧ isCont b2 = true)
        ∨ (b1 = 0xF4 ∧ 0x80 ≤ b2 ∧ b2 ≤ 0x8F))
    (h3 : isCont b3 = true) (h4 : isCont b4 = true) :
    ∃ c, isScalar c = true ∧ utf8Enc c = [b1, b2, b3, b4] := by
  simp only [isCont, Bool.and_eq_true, decide_eq_true_eq] at h1 h3 h4
  refine ⟨(b1 - 0xF0) * 0x40000 + (b2 - 0x80) * 0x1000 + (b3 - 0x80) * 0x40 + (b4 - 0x80),
    by simp [isScalar]; omega, ?_⟩
  unfold utf8Enc
  rw [if_neg (by omega), if_neg (by omega), if_neg (by omega)]
  simp only [List.cons.injEq, and_true]
  refine ⟨by omega, by omega, by omega, by omega⟩

theorem ValidUTF8_nil : ValidUTF8 [] := ⟨[], by simp, rfl⟩

theorem ValidUTF8_cons (c : Nat) (t : List Nat) (hc : isScalar c = true)
    (ht : ValidUTF8 t) : ValidUTF8 (utf8Enc c ++ t) := by
  obtain ⟨cs, hcs, rfl⟩ := ht
  exact ⟨c :: cs, by
    intro x hx
    rcases List.mem_cons.mp hx with rfl | hx
    · exact hc
    · exact hcs x hx, by simp⟩

set_option maxHeartbeats 3000000 in
theorem IsUTF8_sound_aux : ∀ (n : Nat) (s : List Nat), s.length ≤ n →
    IsUTF8 s = true → ValidUTF8 s := by
  intro n
  induction n with
  | zero =>
    intro s hlen _
    rw [Nat.le_zero, List.length_eq_zero] at hlen
    rw [hlen]
    exact ValidUTF8_nil
  | succ n ih =>
    intro s hlen h
    rcases s with _ | ⟨b1, _ | ⟨b2, _ | ⟨b3, _ | ⟨b4, rest4⟩⟩⟩⟩
    · exact ValidUTF8_nil
    · rw [IsUTF8_one] at h
      split_ifs at h with hb1
      obtain ⟨hs, he⟩ := enc1 b1 hb1
      have := ValidUTF8_cons b1 [] hs ValidUTF8_nil
      rwa [he] at this
    · rw [IsUTF8_two] at h
      have hl1 : ([b2] : List Nat).length ≤ n := by simp at hlen ⊢; omega
      split_ifs at h with hb1 hb2
      · obtain ⟨hs, he⟩ := enc1 b1 hb1
        have := ValidUTF8_cons b1 [b2] hs (ih [b2] hl1 h)
        rwa [he] at this
      · rw [Bool.and_eq_true] at h
        simp only [Bool.and_eq_true, decide_eq_true_eq] at hb2
        obtain ⟨c, hs, he⟩ := enc2 b1 b2 hb2.1 hb2.2 h.1
        have := ValidUTF8_cons c [] hs ValidUTF8_nil
        rwa [he, List.append_nil] at this
    · rw [IsUTF8_three] at h
      have hl1 : ([b2, b3] : List Nat).length ≤ n := by simp at hlen ⊢; omega
      have hl2 : ([b3] : List Nat).length ≤ n := by simp at hlen ⊢; omega
      split_ifs at h with hb1 hb2 hb3 hb4 hb5 hb6
      · obtain ⟨hs, he⟩ := enc1 b1 hb1
        have := ValidUTF8_cons b1 [b2, b3] hs (ih [b2, b3] hl1 h)
        rwa [he] at this
      · rw [Bool.and_eq_true] at h
        simp only [Bool.and_eq_true, decide_eq_true_eq] at hb2
        obtain ⟨c, hs, he⟩ := enc2 b1 b2 hb2.1 hb2.2 h.1
        have := ValidUTF8_cons c [b3] hs (ih [b3] hl2 h.2)
        rwa [he] at this
      · simp only [Bool.and_eq_true, decide_eq_true_eq] at h
        obtain ⟨⟨h2a, h2b⟩, h3, _⟩ := h
        obtain ⟨c, hs, he⟩ := enc3 b1 b2 b3 (Or.inl ⟨hb3, h2a, h2b⟩) h3
        have := ValidUTF8_cons c [] hs ValidUTF8_nil
        rwa [he, List.append_nil] at this
      · rw [Bool.and_eq_true, Bool.and_eq_true] at h
        simp only [Bool.and_eq_true, decide_eq_true_eq] at hb4
        obtain ⟨h2, h3, _⟩ := h
        obtain ⟨c, hs, he⟩ := enc3 b1 b2 b3 (Or.inr (Or.inl ⟨hb4.1, hb4.2, h2⟩)) h3
        have := ValidUTF8_cons c [] hs ValidUTF8_nil
        rwa [he, List.append_nil] at this
      · simp only [Bool.and_eq_true, decide_eq_true_eq] at h
        obtain ⟨⟨h2a, h2b⟩, h3, _⟩ := h
        obtain ⟨c, hs, he⟩ := enc3 b1 b2 b3 (Or.inr (Or.inr (Or.inl ⟨hb5, h2a, h2b⟩))) h3
        have := ValidUTF8_cons c [] hs ValidUTF8_nil
        rwa [he, List.append_nil] at this
      · rw [Bool.and_eq_true, Bool.and_eq_true] at h
        simp only [Bool.and_eq_true, decide_eq_true_eq] at hb6
        obtain ⟨h2, h3, _⟩ := h
        obtain ⟨c, hs, he⟩ := enc3 b1 b2 b3 (Or.inr (Or.inr (Or.inr ⟨hb6.1, hb6.2, h2⟩))) h3
        have := ValidUTF8_cons c [] hs ValidUTF8_nil
        rwa [he, List.append_nil] at this
    · rw [IsUTF8_four] at h
      have hl1 : (b2 :: b3 :: b4 :: rest4).length ≤ n := by simp at hlen ⊢; omega
      have hl2 : (b3 :: b4 :: rest4).length ≤ n := by simp at hlen ⊢; omega
      have hl3 : (b4 :: rest4).length ≤ n := by simp at hlen ⊢; omega
      have hl4 : rest4.length ≤ n := by simp at hlen ⊢; omega
      split_ifs at h with hb1 hb2 hb3 hb4 hb5 hb6 hb7 hb8 hb9
      · obtain ⟨hs, he⟩ := enc1 b1 hb1
        have := ValidUTF8_cons b1 _ hs (ih _ hl1 h)
        rwa [he] at this
      · rw [Bool.and_eq_true] at h
        simp only [Bool.and_eq_true, decide_eq_true_eq] at hb2
        obtain ⟨c, hs, he⟩ := enc2 b1 b2 hb2.1 hb2.2 h.1
        have := ValidUTF8_cons c _ hs (ih _ hl2 h.2)
        rwa [he] at this
      · simp only [Bool.and_eq_true, decide_eq_true_eq] at h
        obtain ⟨⟨h2a, h2b⟩, h3, hr⟩ := h
        obtain ⟨c, hs, he⟩ := enc3 b1 b2 b3 (Or.inl ⟨hb3, h2a, h2b⟩) h3
        have := ValidUTF8_cons c _ hs (ih _ hl3 hr)
        rwa [he] at this
      · rw [Bool.and_eq_true, Bool.and_eq_true] at h
        simp only [Bool.and_eq_true, decide_eq_true_eq] at hb4
        obtain ⟨h2, h3, hr⟩ := h
        obtain ⟨c, hs, he⟩ := enc3 b1 b2 b3 (Or.inr (Or.inl ⟨hb4.1, hb4.2, h2⟩)) h3
        have := ValidUTF8_cons c _ hs (ih _ hl3 hr)
        rwa [he] at this
      · simp only [Bool.and_eq_true, decide_eq_true_eq] at h
        obtain ⟨⟨h2a, h2b⟩, h3, hr⟩ := h
        obtain ⟨c, hs, he⟩ := enc3 b1 b2 b3 (Or.inr (Or.inr (Or.inl ⟨hb5, h2a, h2b⟩))) h3
        have := ValidUTF8_cons c _ hs (ih _ hl3 hr)
        rwa [he] at this
      · rw [Bool.and_eq_true, Bool.and_eq_true] at h
        simp only [Bool.and_eq_true, decide_eq_true_eq] at hb6
        obtain ⟨h2, h3, hr⟩ := h
        obtain ⟨c, hs, he⟩ := enc3 b1 b2 b3 (Or.inr (Or.inr (Or.inr ⟨hb6.1, hb6.2, h2⟩))) h3
        have := ValidUTF8_cons c _ hs (ih _ hl3 hr)
        rwa [he] at this
      · simp only [Bool.and_eq_true, decide_eq_true_eq] at h
        obtain ⟨⟨h2a, h2b⟩, h3, h4, hr⟩ := h
        obtain ⟨c, hs, he⟩ := enc4 b1 b2 b3 b4 (Or.inl ⟨hb7, h2a, h2b⟩) h3 h4
        have := ValidUTF8_cons c _ hs (ih _ hl4 hr)
        rwa [he] at this
      · rw [Bool.and_eq_true, Bool.and_eq_true, Bool.and_eq_true] at h
        simp only [Bool.and_eq_true, decide_eq_true_eq] at hb8
        obtain ⟨h2, h3, h4, hr⟩ := h
        obtain ⟨c, hs, he⟩ := enc4 b1 b2 b3 b4 (Or.inr (Or.inl ⟨hb8.1, hb8.2, h2⟩)) h3 h4
        have := ValidUTF8_cons c _ hs (ih _ hl4 hr)
        rwa [he] at this
      · simp only [Bool.and_eq_true, decide_eq_true_eq] at h
        obtain ⟨⟨h2a, h2b⟩, h3, h4, hr⟩ := h
        obtain ⟨c, hs, he⟩ := enc4 b1 b2 b3 b4 (Or.inr (Or.inr ⟨hb9, h2a, h2b⟩)) h3 h4
        have := ValidUTF8_cons c _ hs (ih _ hl4 hr)
        rwa [he] at this

theorem IsUTF8_enc_append (c : Nat) (t : List Nat) (hc : isScalar c = true)
    (ht : IsUTF8 t = true) : IsUTF8 (utf8Enc c ++ t) = true := by
  simp only [isScalar, Bool.and_eq_true, Bool.not_eq_true', Bool.and_eq_false_iff,
    decide_eq_true_eq, decide_eq_false_iff_not] at hc
  unfold utf8Enc
  by_cases hr1 : c ≤ 0x7F
  · rw [if_pos hr1]
    rw [List.cons_append, List.nil_append, IsUTF8_cons, if_pos hr1]
    exact ht
  · rw [if_neg hr1]
    by_cases hr2 : c ≤ 0x7FF
    · rw [if_pos hr2]
      rw [List.cons_append, List.cons_append, List.nil_append, IsUTF8_cons,
        if_neg (by omega), if_pos (by simp; omega)]
      show (isCont (0x80 + c % 0x40) && IsUTF8 t) = true
      rw [Bool.and_eq_true]
      exact ⟨by simp [isCont]; omega, ht⟩
    · rw [if_neg hr2]
      by_cases hr3 : c ≤ 0xFFFF
      · rw [if_pos hr3]
        simp only [List.cons_append, List.nil_append]
        rw [IsUTF8_cons, if_neg (by omega)]
        by_cases he0 : c < 0x1000
        · rw [if_neg (by simp; omega), if_pos (by omega : 0xE0 + c / 0x1000 = 0xE0)]
          show ((0xA0 ≤ 0x80 + c / 0x40 % 0x40 && 0x80 + c / 0x40 % 0x40 ≤ 0xBF)
            && (isCont (0x80 + c % 0x40) && IsUTF8 t)) = true
          simp [isCont, ht]
          omega
        · by_cases hmid : c < 0xD000
          · rw [if_neg (by simp; omega), if_neg (by omega : ¬ (0xE0 + c / 0x1000 = 0xE0)),
              if_pos (by simp; omega)]
            show (isCont (0x80 + c / 0x40 % 0x40) && (isCont (0x80 + c % 0x40) && IsUTF8 t)) = true
            simp [isCont, ht]
            omega
          · by_cases hed : c < 0xD800
            · rw [if_neg (by simp; omega), if_neg (by omega : ¬ (0xE0 + c / 0x1000 = 0xE0)),
                if_neg (by simp; omega), if_pos (by omega : 0xE0 + c / 0x1000 = 0xED)]
              show ((0x80 ≤ 0x80 + c / 0x40 % 0x40 && 0x80 + c / 0x40 % 0x40 ≤ 0x9F)
                && (isCont (0x80 + c % 0x40) && IsUTF8 t)) = true
              simp [isCont, ht]
              omega
            · -- c ∈ [0xE000, 0xFFFF] (surrogates excluded by hc)
              rw [if_neg (by simp; omega), if_neg (by omega : ¬ (0xE0 + c / 0x1000 = 0xE0)),
                if_neg (by simp; omega), if_neg (by omega : ¬ (0xE0 + c / 0x1000 = 0xED)),
                if_pos (by simp; omega)]
              show (isCont (0x80 + c / 0x40 % 0x40) && (isCont (0x80 + c % 0x40) && IsUTF8 t)) = true
              simp [isCont, ht]
              omega
      · -- four bytes
        rw [if_neg hr3]
        simp only [List.cons_append, List.nil_append]
        rw [IsUTF8_cons, if_neg (by omega), if_neg (by simp; omega)]
        by_cases hf0 : c < 0x40000
        · rw [if_neg (by omega : ¬ (0xF0 + c / 0x40000 = 0xE0)), if_neg (by simp; omega),
            if_neg (by omega : ¬ (0xF0 + c / 0x40000 = 0xED)), if_neg (by simp; omega),
            if_pos (by omega : 0xF0 + c / 0x40000 = 0xF0)]
          show ((0x90 ≤ 0x80 + c / 0x1000 % 0x40 && 0x80 + c / 0x1000 % 0x40 ≤ 0xBF)
            && (isCont (0x80 + c / 0x40 % 0x40) && (isCont (0x80 + c % 0x40) && IsUTF8 t))) = true
          simp [isCont, ht]
          omega
        · by_cases hfm : c < 0x100000
          · rw [if_neg (by omega : ¬ (0xF0 + c / 0x40000 = 0xE0)), if_neg (by simp; omega),
              if_neg (by omega : ¬ (0xF0 + c / 0x40000 = 0xED)), if_neg (by simp; omega),
              if_neg (by omega : ¬ (0xF0 + c / 0x40000 = 0xF0)), if_pos (by simp; omega)]
            show (isCont (0x80 + c / 0x1000 % 0x40)
              && (isCont (0x80 + c / 0x40 % 0x40) && (isCont (0x80 + c % 0x40) && IsUTF8 t))) = true
            simp [isCont, ht]
            omega
          · -- c ∈ [0x100000, 0x10FFFF]
            rw [if_neg (by omega : ¬ (0xF0 + c / 0x40000 = 0xE0)), if_neg (by simp; omega),
              if_neg (by omega : ¬ (0xF0 + c / 0x40000 = 0xED)), if_neg (by simp; omega),
              if_neg (by omega : ¬ (0xF0 + c / 0x40000 = 0xF0)), if_neg (by simp; omega),
              if_pos (by omega : 0xF0 + c / 0x40000 = 0xF4)]
            show ((0x80 ≤ 0x80 + c / 0x1000 % 0x40 && 0x80 + c / 0x1000 % 0x40 ≤ 0x8F)
              && (isCont (0x80 + c / 0x40 % 0x40) && (isCont (0x80 + c % 0x40) && IsUTF8 t))) = true
            simp [isCont, ht]
            omega

theorem IsUTF8_iff_ValidUTF8 (s : List Nat) : IsUTF8 s = true ↔ ValidUTF8 s := by
  constructor
  · exact IsUTF8_sound_aux s.length s le_rfl
  · rintro ⟨cs, hcs, rfl⟩
    induction cs with
    | nil => rfl
    | cons c cs ih =>
      simp only [List.map_cons, List.flatten_cons]
      exact IsUTF8_enc_append c _ (hcs c (List.mem_cons_self c cs))
        (ih (fun x hx => hcs x (List.mem_cons_of_mem _ hx)))

/-- Claim C4: the string validator accepts a byte string iff it contains no
carriage return (byte 13), no line feed (byte 10), and is valid UTF-8 (the
concatenation of UTF-8 encodings of Unicode scalar values). -/
theorem IsSDPString_iff (s : List Nat) :
    IsSDPString s = true ↔ 13 ∉ s ∧ 10 ∉ s ∧ ValidUTF8 s := by
  rw [← IsUTF8_iff_ValidUTF8]
  unfold IsSDPString
  by_cases h1 : 13 ∈ s <;> by_cases h2 : 10 ∈ s <;>
    by_cases h3 : IsUTF8 s = true <;> simp [h1, h2, h3]

/-! ## Claim theorems: address formatter -/

/-- Claim C5: for every IPv4 socket address the formatter accepts (length at
least the family-tag size, numeric host resolution succeeded), the output
starts with `IN IP4 `; if the address is moreover an IPv4 multicast
address, the output additionally ends with `/255`. -/
theorem AddressToSDP_inet_format (addr : SockAddr) (addrlen : Nat) (host : String)
    (hfam : addr.family = Family.inet)
    (hlen : saFamilyMinLen ≤ addrlen)
    (hni : addr.nameinfo = some host) :
    ∃ out rest, AddressToSDP addr addrlen = some out
      ∧ out = "IN IP4 " ++ rest
      ∧ (addr.multicast = true → ∃ pre, out = pre ++ "/255") := by
  obtain ⟨fam, ni, mc⟩ := addr
  simp only at hfam hni
  subst hfam
  subst hni
  unfold AddressToSDP
  rw [if_neg (by omega)]
  cases mc with
  | false =>
    refine ⟨_, host, rfl, ?_, ?_⟩
    · rfl
    · intro hmc
      exact absurd hmc (by simp)
  | true =>
    refine ⟨_, host ++ "/255", rfl, ?_, fun _ => ⟨"IN IP4 " ++ host, ?_⟩⟩
    · rfl
    · rfl

/-- Witness for C5 at the concrete multicast address 239.1.1.1. -/
theorem AddressToSDP_inet_format_w :
    ∃ out rest, AddressToSDP ⟨Family.inet, some "239.1.1.1", true⟩ 16 = some out
      ∧ out = "IN IP4 " ++ rest
      ∧ ((⟨Family.inet, some "239.1.1.1", true⟩ : SockAddr).multicast = true →
          ∃ pre, out = pre ++ "/255") :=
  AddressToSDP_inet_format ⟨Family.inet, some "239.1.1.1", true⟩ 16 "239.1.1.1"
    rfl (by decide) rfl

/-! ## Claim theorems: session initialisation -/

/-- Claim C7: if any supplied text field (name, description, url, email or
phone) is not line-safe, session initialisation fails and returns no
document. -/
theorem sdp_Start_rejects_invalid
    (name description url email phone : Option String)
    (src : SockAddr) (srclen : Nat) (addr : SockAddr) (addrlen : Nat)
    (now : Nat) (hostname : String)
    (hbad : (∃ s, name = some s ∧ IsSDPStringC s = false)
          ∨ (∃ s, description = some s ∧ IsSDPStringC s = false)
          ∨ (∃ s, url = some s ∧ IsSDPStringC s = false)
          ∨ (∃ s, email = some s ∧ IsSDPStringC s = false)
          ∨ (∃ s, phone = some s ∧ IsSDPStringC s = false)) :
    sdp_Start name description url email phone src srclen addr addrlen now hostname
      = none := by
  rcases hbad with ⟨s, rfl, hs⟩ | ⟨s, rfl, hs⟩ | ⟨s, rfl, hs⟩ | ⟨s, rfl, hs⟩ | ⟨s, rfl, hs⟩ <;>
    simp [sdp_Start, hs]

/-- Witness for C7: a session name containing CRLF is rejected. -/
theorem sdp_Start_rejects_invalid_w :
    ((∃ s, (some "a\r\nb" : Option String) = some s ∧ IsSDPStringC s = false)
      ∨ (∃ s, (none : Option String) = some s ∧ IsSDPStringC s = false)
      ∨ (∃ s, (none : Option String) = some s ∧ IsSDPStringC s = false)
      ∨ (∃ s, (none : Option String) = some s ∧ IsSDPStringC s = false)
      ∨ (∃ s, (none : Option String) = some s ∧ IsSDPStringC s = false))
    ∧ sdp_Start (some "a\r\nb") none none none none ⟨Family.other, none, false⟩ 0
        ⟨Family.inet, some "1.2.3.4", false⟩ 16 7 "myhost" = none :=
  ⟨Or.inl ⟨"a\r\nb", rfl, by decide⟩,
    sdp_Start_rejects_invalid (some "a\r\nb") none none none none
      ⟨Family.other, none, false⟩ 0 ⟨Family.inet, some "1.2.3.4", false⟩ 16 7 "myhost"
      (Or.inl ⟨"a\r\nb", rfl, by decide⟩)⟩

theorem data_append (s t : String) : (s ++ t).data = s.data ++ t.data := rfl

theorem str_ext (s t : String) (h : s.data = t.data) : s = t := by
  cases s
  cases t
  exact congrArg String.mk h

/-- Claim C3 (failing evaluation): a successful session initialisation
yields a CRLF well-formed document, but a subsequent successful attribute
append with the conversion-free template `"bar"` leaves the buffer with an
unterminated final line, violating the every-line-ends-in-CRLF invariant at
an observable point. -/
theorem builder_crlf_invariant_broken :
    sdp_Start none none none none none ⟨Family.other, none, false⟩ 0
        ⟨Family.inet, some "1.2.3.4", false⟩ 16 7 "myhost"
      = some ("v=0\r\no=- 7 7 IN IP4 myhost\r\ns=Unnamed\r\ni=N/A\r\nc=IN IP4 1.2.3.4\r\nt=0 0\r\na=tool:vlc 0.9.0-git\r\na=recvonly\r\na=type:broadcast\r\na=charset:UTF-8\r\n")
    ∧ wellFormedCRLF "v=0\r\no=- 7 7 IN IP4 myhost\r\ns=Unnamed\r\ni=N/A\r\nc=IN IP4 1.2.3.4\r\nt=0 0\r\na=tool:vlc 0.9.0-git\r\na=recvonly\r\na=type:broadcast\r\na=charset:UTF-8\r\n" = true
    ∧ sdp_AddAttribute "v=0\r\no=- 7 7 IN IP4 myhost\r\ns=Unnamed\r\ni=N/A\r\nc=IN IP4 1.2.3.4\r\nt=0 0\r\na=tool:vlc 0.9.0-git\r\na=recvonly\r\na=type:broadcast\r\na=charset:UTF-8\r\n"
        "foo" (some "bar") []
      = Except.ok "v=0\r\no=- 7 7 IN IP4 myhost\r\ns=Unnamed\r\ni=N/A\r\nc=IN IP4 1.2.3.4\r\nt=0 0\r\na=tool:vlc 0.9.0-git\r\na=recvonly\r\na=type:broadcast\r\na=charset:UTF-8\r\na=foo:bar"
    ∧ wellFormedCRLF "v=0\r\no=- 7 7 IN IP4 myhost\r\ns=Unnamed\r\ni=N/A\r\nc=IN IP4 1.2.3.4\r\nt=0 0\r\na=tool:vlc 0.9.0-git\r\na=recvonly\r\na=type:broadcast\r\na=charset:UTF-8\r\na=foo:bar" = false :=
  ⟨rfl, rfl, rfl, rfl⟩

/-- Claim C8: when a source address is supplied but fails to format, session
initialisation still succeeds (on otherwise valid inputs) and produces the
same document as if no source address had been supplied, with no
source-filter line; when the source address formats successfully, the
produced document ends with the source-filter attribute line embedding the
formatted source host and its IP-version marker. -/
theorem sdp_Start_source_filter
    (name description url email phone : Option String)
    (src : SockAddr) (srclen : Nat) (addr : SockAddr) (addrlen : Nat)
    (now : Nat) (hostname : String)
    (hn : ∀ s, name = some s → IsSDPStringC s = true)
    (hd : ∀ s, description = some s → IsSDPStringC s = true)
    (hu : ∀ s, url = some s → IsSDPStringC s = true)
    (he : ∀ s, email = some s → IsSDPStringC s = true)
    (hp : ∀ s, phone = some s → IsSDPStringC s = true)
    (conn : String) (hconn : AddressToSDP addr addrlen = some conn) :
    (AddressToSDP src srclen = none →
      sdp_Start name description url email phone src srclen addr addrlen now hostname
        = sdp_Start name description url email phone src 0 addr addrlen now hostname
      ∧ ∃ doc, sdp_Start name description url email phone src srclen addr addrlen
          now hostname = some doc)
    ∧ (∀ machine, 0 < srclen → AddressToSDP src srclen = some machine →
      ∃ doc pre, sdp_Start name description url email phone src srclen addr addrlen
          now hostname = some doc
        ∧ doc = pre ++ ("a=source-filter: incl IN IP"
            ++ String.singleton (charAt5 machine) ++ " * "
            ++ String.mk (machine.data.drop 7) ++ "\r\n")) := by
  have h1 : IsSDPStringC (name.getD "Unnamed") = true := by
    cases name with
    | none => decide
    | some s => exact hn s rfl
  have h2 : IsSDPStringC (description.getD "N/A") = true := by
    cases description with
    | none => decide
    | some s => exact hd s rfl
  have h3 : IsSDPStringC (url.getD "") = true := by
    cases url with
    | none => decide
    | some s => exact hu s rfl
  have h4 : IsSDPStringC (email.getD "") = true := by
    cases email with
    | none => decide
    | some s => exact he s rfl
  have h5 : IsSDPStringC (phone.getD "") = true := by
    cases phone with
    | none => decide
    | some s => exact hp s rfl
  constructor
  · intro hfail
    by_cases hpos : 0 < srclen
    · constructor
      · simp [sdp_Start, h1, h2, h3, h4, h5, hconn, hfail, hpos]
      · simp [sdp_Start, h1, h2, h3, h4, h5, hconn, hfail, hpos]
    · constructor
      · simp [sdp_Start, h1, h2, h3, h4, h5, hconn, hpos]
      · simp [sdp_Start, h1, h2, h3, h4, h5, hconn, hpos]
  · intro machine hpos hok
    have hdoc : sdp_Start name description url email phone src srclen addr addrlen
        now hostname
        = some (("v=0" ++ "\r\n" ++ "o=- " ++ natStr now ++ " " ++ natStr now
          ++ " IN IP" ++ String.singleton (charAt5 conn) ++ " " ++ hostname
          ++ "\r\n" ++ "s=" ++ name.getD "Unnamed"
          ++ "\r\n" ++ "i=" ++ description.getD "N/A"
          ++ (if url.isSome then "\r\n" ++ "u=" else "") ++ url.getD ""
          ++ (if email.isSome then "\r\n" ++ "e=" else "") ++ email.getD ""
          ++ (if phone.isSome then "\r\n" ++ "p=" else "") ++ phone.getD ""
          ++ "\r\n" ++ "c=" ++ conn
          ++ "\r\n" ++ "t=0 0"
          ++ "\r\n" ++ "a=tool:" ++ PACKAGE_STRING
          ++ "\r\n" ++ "a=recvonly"
          ++ "\r\n" ++ "a=type:broadcast"
          ++ "\r\n" ++ "a=charset:UTF-8"
          ++ "\r\n")
          ++ ("a=source-filter: incl IN IP" ++ String.singleton (charAt5 machine)
            ++ " * " ++ String.mk (machine.data.drop 7) ++ "\r\n")) := by
      simp only [sdp_Start, h1, h2, h3, h4, h5, hconn, hok, hpos, Bool.not_true,
        Bool.or_self, Bool.false_or, Bool.or_false, if_pos, Bool.false_eq_true,
        if_false, if_true]
      refine congrArg some (str_ext _ _ ?_)
      simp [data_append, List.append_assoc]
    exact ⟨_, _, hdoc, rfl⟩

/-! ## Line decomposition of the session document -/

theorem digitCh_ne_cr (d : Nat) : digitCh d ≠ '\r' := by
  unfold digitCh
  have h : d % 10 < 10 := Nat.mod_lt _ (by decide)
  set k := d % 10 with hk
  interval_cases k <;> decide

theorem natDigitsAux_no_cr (fuel n : Nat) : '\r' ∉ natDigitsAux fuel n := by
  induction fuel generalizing n with
  | zero => simp [natDigitsAux]
  | succ f ih =>
    unfold natDigitsAux
    by_cases h : n < 10
    · rw [if_pos h]
      intro hm
      rcases List.mem_singleton.mp hm with hm
      exact digitCh_ne_cr n hm.symm
    · rw [if_neg h]
      intro hm
      rcases List.mem_append.mp hm with hm | hm
      · exact ih (n / 10) hm
      · exact digitCh_ne_cr (n % 10) (List.mem_singleton.mp hm).symm

theorem natDigits_no_cr (n : Nat) : '\r' ∉ natDigits n := natDigitsAux_no_cr (n + 1) n

theorem getD_mem_or (l : List Char) (n : Nat) (d : Char) :
    l.getD n d = d ∨ l.getD n d ∈ l := by
  induction l generalizing n with
  | nil => left; rfl
  | cons a t ih =>
    cases n with
    | zero => right; exact List.mem_cons_self a t
    | succ m =>
      rcases ih m with h | h
      · left
        simpa [List.getD_cons_succ] using h
      · right
        rw [List.getD_cons_succ]
        exact List.mem_cons_of_mem a h

theorem charAt5_ne_cr (s : String) (h : '\r' ∉ s.data) : charAt5 s ≠ '\r' := by
  unfold charAt5
  rcases getD_mem_or s.data 5 ' ' with he | hm
  · rw [he]; decide
  · intro e
    exact h (e ▸ hm)

/-- Optional contact line: `pre` marker plus the supplied value, or nothing. -/
def optLine (pre : String) (o : Option String) : List (List Char) :=
  match o with
  | some s => [pre.data ++ s.data]
  | none => []

/-- Optional source-filter line body. -/
def sfLines : Option (List Char) → List (List Char)
  | some l => [l]
  | none => []

/-- The list of CRLF-terminated lines `sdp_Start` is expected to produce:
the fixed skeleton, the optional contact lines, and the optional
source-filter line (`sf`, given as the line body when present). -/
def sdpLines (nm ds : String) (url email phone : Option String)
    (conn hostname : String) (now : Nat) (sf : Option (List Char)) :
    List (List Char) :=
  [("v=0" : String).data,
   ("o=- " : String).data ++ natDigits now ++ (" " : String).data ++ natDigits now
     ++ (" IN IP" : String).data ++ [charAt5 conn] ++ (" " : String).data ++ hostname.data,
   ("s=" : String).data ++ nm.data,
   ("i=" : String).data ++ ds.data]
  ++ optLine "u=" url
  ++ optLine "e=" email
  ++ optLine "p=" phone
  ++ [("c=" : String).data ++ conn.data,
      ("t=0 0" : String).data,
      ("a=tool:" : String).data ++ PACKAGE_STRING.data,
      ("a=recvonly" : String).data,
      ("a=type:broadcast" : String).data,
      ("a=charset:UTF-8" : String).data]
  ++ sfLines sf

theorem mem_optLine (l : List Char) (pre : String) (o : Option String)
    (h : l ∈ optLine pre o) : ∃ s, o = some s ∧ l = pre.data ++ s.data := by
  cases o with
  | none => simp [optLine] at h
  | some s => exact ⟨s, rfl, List.mem_singleton.mp h⟩

theorem mem_sfLines (l : List Char) (sf : Option (List Char))
    (h : l ∈ sfLines sf) : ∃ x, sf = some x ∧ l = x := by
  cases sf with
  | none => simp [sfLines] at h
  | some x => exact ⟨x, rfl, List.mem_singleton.mp h⟩

theorem sdpLines_no_cr (nm ds : String) (url email phone : Option String)
    (conn hostname : String) (now : Nat) (sf : Option (List Char))
    (hnm : '\r' ∉ nm.data) (hds : '\r' ∉ ds.data)
    (hu : ∀ u, url = some u → '\r' ∉ u.data)
    (he : ∀ e, email = some e → '\r' ∉ e.data)
    (hp : ∀ p, phone = some p → '\r' ∉ p.data)
    (hconn : '\r' ∉ conn.data) (hhost : '\r' ∉ hostname.data)
    (hsf : ∀ l, sf = some l → '\r' ∉ l) :
    ∀ l ∈ sdpLines nm ds url email phone conn hostname now sf, '\r' ∉ l := by
  intro l hl
  unfold sdpLines at hl
  rcases List.mem_append.mp hl with hl | hsfm
  on_goal 2 =>
    obtain ⟨x, hx, hxl⟩ := mem_sfLines _ _ hsfm
    rw [hxl]
    exact hsf x hx
  rcases List.mem_append.mp hl with hl | hl
  on_goal 2 =>
    intro hm
    simp only [List.mem_cons, List.not_mem_nil, or_false] at hl
    rcases hl with rfl | rfl | rfl | rfl | rfl | rfl
    · rcases List.mem_append.mp hm with hm | hm
      · exact absurd hm (by decide)
      · exact hconn hm
    · exact absurd hm (by decide)
    · rcases List.mem_append.mp hm with hm | hm
      · exact absurd hm (by decide)
      · exact absurd hm (by decide)
    · exact absurd hm (by decide)
    · exact absurd hm (by decide)
    · exact absurd hm (by decide)
  rcases List.mem_append.mp hl with hl | hl
  on_goal 2 =>
    obtain ⟨x, hx, hxl⟩ := mem_optLine _ _ _ hl
    rw [hxl]
    intro hm
    rcases List.mem_append.mp hm with hm | hm
    · exact absurd hm (by decide)
    · exact hp x hx hm
  rcases List.mem_append.mp hl with hl | hl
  on_goal 2 =>
    obtain ⟨x, hx, hxl⟩ := mem_optLine _ _ _ hl
    rw [hxl]
    intro hm
    rcases List.mem_append.mp hm with hm | hm
    · exact absurd hm (by decide)
    · exact he x hx hm
  rcases List.mem_append.mp hl with hl | hl
  on_goal 2 =>
    obtain ⟨x, hx, hxl⟩ := mem_optLine _ _ _ hl
    rw [hxl]
    intro hm
    rcases List.mem_append.mp hm with hm | hm
    · exact absurd hm (by decide)
    · exact hu x hx hm
  simp only [List.mem_cons, List.not_mem_nil, or_false] at hl
  rcases hl with rfl | rfl | rfl | rfl
  · decide
  · intro hm
    rcases List.mem_append.mp hm with hm | hm
    on_goal 2 => exact hhost hm
    rcases List.mem_append.mp hm with hm | hm
    on_goal 2 => exact absurd hm (by decide)
    rcases List.mem_append.mp hm with hm | hm
    on_goal 2 =>
      rcases List.mem_singleton.mp hm with hm
      exact charAt5_ne_cr conn hconn hm.symm
    rcases List.mem_append.mp hm with hm | hm
    on_goal 2 => exact absurd hm (by decide)
    rcases List.mem_append.mp hm with hm | hm
    on_goal 2 => exact natDigits_no_cr now hm
    rcases List.mem_append.mp hm with hm | hm
    on_goal 2 => exact absurd hm (by decide)
    rcases List.mem_append.mp hm with hm | hm
    on_goal 2 => exact natDigits_no_cr now hm
    exact absurd hm (by decide)
  · intro hm
    rcases List.mem_append.mp hm with hm | hm
    · exact absurd hm (by decide)
    · exact hnm hm
  · intro hm
    rcases List.mem_append.mp hm with hm | hm
    · exact absurd hm (by decide)
    · exact hds hm

/-- String form of the optional source-filter segment. -/
def sfString : Option (List Char) → String
  | some l => "\r\n" ++ String.mk l
  | none => ""

/-- Canonical unfolding of a successful `sdp_Start`. -/
theorem sdp_Start_some
    (name description url email phone : Option String)
    (src : SockAddr) (srclen : Nat) (addr : SockAddr) (addrlen : Nat)
    (now : Nat) (hostname : String)
    (h1 : IsSDPStringC (name.getD "Unnamed") = true)
    (h2 : IsSDPStringC (description.getD "N/A") = true)
    (h3 : IsSDPStringC (url.getD "") = true)
    (h4 : IsSDPStringC (email.getD "") = true)
    (h5 : IsSDPStringC (phone.getD "") = true)
    (conn : String) (hconn : AddressToSDP addr addrlen = some conn) :
    sdp_Start name description url email phone src srclen addr addrlen now hostname
      = some ("v=0"
        ++ "\r\n" ++ "o=- " ++ natStr now ++ " " ++ natStr now
          ++ " IN IP" ++ String.singleton (charAt5 conn) ++ " " ++ hostname
        ++ "\r\n" ++ "s=" ++ name.getD "Unnamed"
        ++ "\r\n" ++ "i=" ++ description.getD "N/A"
        ++ (if url.isSome then "\r\n" ++ "u=" else "") ++ url.getD ""
        ++ (if email.isSome then "\r\n" ++ "e=" else "") ++ email.getD ""
        ++ (if phone.isSome then "\r\n" ++ "p=" else "") ++ phone.getD ""
        ++ "\r\n" ++ "c=" ++ conn
        ++ "\r\n" ++ "t=0 0"
        ++ "\r\n" ++ "a=tool:" ++ PACKAGE_STRING
        ++ "\r\n" ++ "a=recvonly"
        ++ "\r\n" ++ "a=type:broadcast"
        ++ "\r\n" ++ "a=charset:UTF-8"
        ++ (if 0 < srclen then
              match AddressToSDP src srclen with
              | some machine =>
                "\r\n" ++ "a=source-filter: incl IN IP"
                  ++ String.singleton (charAt5 machine) ++ " * "
                  ++ String.mk (machine.data.drop 7)
              | none => ""
            else "")
        ++ "\r\n") := by
  simp only [sdp_Start, h1, h2, h3, h4, h5, hconn, Bool.not_true, Bool.false_or,
    Bool.or_false, Bool.or_self, Bool.false_eq_true, if_false]

theorem dataCRLF : ("\r\n" : String).data = ['\r', '\n'] := rfl

theorem dataMk (l : List Char) : (String.mk l).data = l := rfl

theorem dataSingleton (c : Char) : (String.singleton c).data = [c] := rfl

theorem dataNatStr (n : Nat) : (natStr n).data = natDigits n := rfl

set_option maxHeartbeats 4000000 in
/-- A successful `sdp_Start` produces exactly the CRLF join of `sdpLines`. -/
theorem sdp_Start_eq_join
    (name description url email phone : Option String)
    (src : SockAddr) (srclen : Nat) (addr : SockAddr) (addrlen : Nat)
    (now : Nat) (hostname : String)
    (h1 : IsSDPStringC (name.getD "Unnamed") = true)
    (h2 : IsSDPStringC (description.getD "N/A") = true)
    (h3 : IsSDPStringC (url.getD "") = true)
    (h4 : IsSDPStringC (email.getD "") = true)
    (h5 : IsSDPStringC (phone.getD "") = true)
    (conn : String) (hconn : AddressToSDP addr addrlen = some conn)
    (sf : Option (List Char))
    (hsf : (if 0 < srclen then
        match AddressToSDP src srclen with
        | some machine =>
          "\r\n" ++ "a=source-filter: incl IN IP"
            ++ String.singleton (charAt5 machine) ++ " * "
            ++ String.mk (machine.data.drop 7)
        | none => ""
      else "") = sfString sf) :
    sdp_Start name description url email phone src srclen addr addrlen now hostname
      = some (String.mk (joinCRLF (sdpLines (name.getD "Unnamed")
          (description.getD "N/A") url email phone conn hostname now sf))) := by
  rw [sdp_Start_some name description url email phone src srclen addr addrlen now hostname
    h1 h2 h3 h4 h5 conn hconn, hsf]
  refine congrArg some (str_ext _ _ ?_)
  rcases url with _ | u <;> rcases email with _ | em <;> rcases phone with _ | ph <;>
      rcases sf with _ | sfl <;>
    simp [sdpLines, optLine, sfLines, sfString, joinCRLF, data_append, dataCRLF,
      dataMk, dataSingleton, dataNatStr, List.append_assoc]

set_option maxHeartbeats 2000000 in
/-- Claim C6: every session initialisation whose supplied text inputs are
line-safe and whose session address formats successfully produces a
document which, split on CRLF, contains exactly one `v=`, `o=`, `s=`,
`i=`, `c=` and `t=` line, and contains a `u=`, `e=` or `p=` line iff the
corresponding url, email or phone input was supplied.  (The external
capability outputs — host name and numeric host strings — are assumed free
of CR, as the C code embeds them without further validation.) -/
theorem sdp_Start_line_structure
    (name description url email phone : Option String)
    (src : SockAddr) (srclen : Nat) (addr : SockAddr) (addrlen : Nat)
    (now : Nat) (hostname : String)
    (hn : ∀ s, name = some s → IsSDPStringC s = true)
    (hd : ∀ s, description = some s → IsSDPStringC s = true)
    (hu : ∀ s, url = some s → IsSDPStringC s = true)
    (he : ∀ s, email = some s → IsSDPStringC s = true)
    (hp : ∀ s, phone = some s → IsSDPStringC s = true)
    (hhost : IsSDPStringC hostname = true)
    (conn : String) (hconn : AddressToSDP addr addrlen = some conn)
    (hcrc : '\r' ∉ conn.data)
    (hsrc : ∀ m, AddressToSDP src srclen = some m → '\r' ∉ m.data) :
    ∃ doc, sdp_Start name description url email phone src srclen addr addrlen
        now hostname = some doc
      ∧ countLines "v=" doc = 1 ∧ countLines "o=" doc = 1 ∧ countLines "s=" doc = 1
      ∧ countLines "i=" doc = 1 ∧ countLines "c=" doc = 1 ∧ countLines "t=" doc = 1
      ∧ countLines "u=" doc = (if url.isSome then 1 else 0)
      ∧ countLines "e=" doc = (if email.isSome then 1 else 0)
      ∧ countLines "p=" doc = (if phone.isSome then 1 else 0) := by
  have h1 : IsSDPStringC (name.getD "Unnamed") = true := by
    cases name with | none => decide | some s => exact hn s rfl
  have h2 : IsSDPStringC (description.getD "N/A") = true := by
    cases description with | none => decide | some s => exact hd s rfl
  have h3 : IsSDPStringC (url.getD "") = true := by
    cases url with | none => decide | some s => exact hu s rfl
  have h4 : IsSDPStringC (email.getD "") = true := by
    cases email with | none => decide | some s => exact he s rfl
  have h5 : IsSDPStringC (phone.getD "") = true := by
    cases phone with | none => decide | some s => exact hp s rfl
  obtain ⟨sf, hsf, hsfm, hsfa⟩ : ∃ sf : Option (List Char),
      ((if 0 < srclen then
          match AddressToSDP src srclen with
          | some machine =>
            "\r\n" ++ "a=source-filter: incl IN IP"
              ++ String.singleton (charAt5 machine) ++ " * "
              ++ String.mk (machine.data.drop 7)
          | none => ""
        else "") = sfString sf)
      ∧ (∀ l, sf = some l → '\r' ∉ l)
      ∧ (∀ l, sf = some l → ∃ t, l = 'a' :: '=' :: t) := by
    by_cases hpos : 0 < srclen
    · cases hres : AddressToSDP src srclen with
      | none =>
        refine ⟨none, ?_, ?_, ?_⟩
        · rw [if_pos hpos]
          exact rfl
        · intro l hl
          exact absurd hl (by simp)
        · intro l hl
          exact absurd hl (by simp)
      | some machine =>
        refine ⟨some (("a=source-filter: incl IN IP" : String).data
          ++ [charAt5 machine] ++ (" * " : String).data ++ machine.data.drop 7), ?_, ?_, ?_⟩
        · rw [if_pos hpos]
          apply str_ext
          simp [sfString, data_append, dataCRLF, dataMk, dataSingleton, List.append_assoc]
        · intro l hl
          obtain rfl := (Option.some.inj hl).symm
          intro hm
          rcases List.mem_append.mp hm with hm | hm
          on_goal 2 => exact hsrc machine hres (List.drop_subset _ _ hm)
          rcases List.mem_append.mp hm with hm | hm
          on_goal 2 => exact absurd hm (by decide)
          rcases List.mem_append.mp hm with hm | hm
          on_goal 2 =>
            rcases List.mem_singleton.mp hm with hm
            exact charAt5_ne_cr machine (hsrc machine hres) hm.symm
          exact absurd hm (by decide)
        · intro l hl
          obtain rfl := (Option.some.inj hl).symm
          exact ⟨("source-filter: incl IN IP" : String).data
            ++ [charAt5 machine] ++ (" * " : String).data ++ machine.data.drop 7, rfl⟩
    · refine ⟨none, ?_, ?_, ?_⟩
      · rw [if_neg hpos]
        exact rfl
      · intro l hl
        exact absurd hl (by simp)
      · intro l hl
        exact absurd hl (by simp)
  have hjoin := sdp_Start_eq_join name description url email phone src srclen addr addrlen
    now hostname h1 h2 h3 h4 h5 conn hconn sf hsf
  refine ⟨_, hjoin, ?_⟩
  have hmem : ∀ l ∈ sdpLines (name.getD "Unnamed") (description.getD "N/A")
      url email phone conn hostname now sf, '\r' ∉ l := by
    refine sdpLines_no_cr _ _ _ _ _ _ _ _ _ ((IsSDPStringC_iff _).mp h1).1
      ((IsSDPStringC_iff _).mp h2).1
      (fun u hu' => ((IsSDPStringC_iff u).mp (hu u hu')).1)
      (fun e he' => ((IsSDPStringC_iff e).mp (he e he')).1)
      (fun p hp' => ((IsSDPStringC_iff p).mp (hp p hp')).1)
      hcrc ((IsSDPStringC_iff _).mp hhost).1 hsfm
  simp only [countLines, dataMk, splitCRLF_join _ hmem]
  rcases sf with _ | sfl
  · rcases url with _ | u <;> rcases email with _ | em <;> rcases phone with _ | ph <;>
      exact ⟨rfl, rfl, rfl, rfl, rfl, rfl, rfl, rfl, rfl⟩
  · obtain ⟨t, rfl⟩ := hsfa sfl rfl
    rcases url with _ | u <;> rcases email with _ | em <;> rcases phone with _ | ph <;>
      exact ⟨rfl, rfl, rfl, rfl, rfl, rfl, rfl, rfl, rfl⟩

/-- Witness for C6 at concrete inputs (name, description and url supplied;
multicast session address; source filter present). -/
theorem sdp_Start_line_structure_w :
    ∃ doc, sdp_Start (some "Test Stream") (some "demo") (some "http://x/") none none
        ⟨Family.inet, some "10.0.0.1", false⟩ 16 ⟨Family.inet, some "239.1.1.1", true⟩ 16
        7 "myhost" = some doc
      ∧ countLines "v=" doc = 1 ∧ countLines "o=" doc = 1 ∧ countLines "s=" doc = 1
      ∧ countLines "i=" doc = 1 ∧ countLines "c=" doc = 1 ∧ countLines "t=" doc = 1
      ∧ countLines "u=" doc = (if (some "http://x/" : Option String).isSome then 1 else 0)
      ∧ countLines "e=" doc = (if (none : Option String).isSome then 1 else 0)
      ∧ countLines "p=" doc = (if (none : Option String).isSome then 1 else 0) :=
  sdp_Start_line_structure (some "Test Stream") (some "demo") (some "http://x/") none none
    ⟨Family.inet, some "10.0.0.1", false⟩ 16 ⟨Family.inet, some "239.1.1.1", true⟩ 16
    7 "myhost"
    (fun _ h => (Option.some.inj h) ▸ (by decide))
    (fun _ h => (Option.some.inj h) ▸ (by decide))
    (fun _ h => (Option.some.inj h) ▸ (by decide))
    (fun _ h => nomatch h)
    (fun _ h => nomatch h)
    (by decide)
    "IN IP4 239.1.1.1/255" rfl
    (by decide)
    (fun m hm => (Option.some.inj (hm : some "IN IP4 10.0.0.1" = some m)) ▸ (by decide))

/-- Witness for C8: a source address that formats successfully yields a
document ending in the source-filter line. -/
theorem sdp_Start_source_filter_w :
    ∃ doc pre, sdp_Start none none none none none ⟨Family.inet, some "10.0.0.1", false⟩ 16
        ⟨Family.inet, some "1.2.3.4", false⟩ 16 7 "myhost" = some doc
      ∧ doc = pre ++ ("a=source-filter: incl IN IP"
          ++ String.singleton (charAt5 "IN IP4 10.0.0.1") ++ " * "
          ++ String.mk (("IN IP4 10.0.0.1" : String).data.drop 7) ++ "\r\n") :=
  (sdp_Start_source_filter none none none none none
      ⟨Family.inet, some "10.0.0.1", false⟩ 16 ⟨Family.inet, some "1.2.3.4", false⟩ 16
      7 "myhost"
      (fun _ h => nomatch h) (fun _ h => nomatch h) (fun _ h => nomatch h)
      (fun _ h => nomatch h) (fun _ h => nomatch h)
      "IN IP4 1.2.3.4" rfl).2
    "IN IP4 10.0.0.1" (by decide) rfl
